import Mathlib

/-!
Verification of the backendSupabase request orchestrator.

Shallow embedding of the route handlers in `index.js` and the Supabase
client stub in `supabaseClient.js`.  Tables are Lean lists of records,
store calls are pure functions on those lists, and each handler is a
Lean function from its parsed request to a response value (and the
updated store where the handler writes).  Timestamps are modelled as
integers (epoch milliseconds); the JavaScript string normalization
`s.toString().trim().toLowerCase()` is modelled by `normalizeEmail`.
-/

namespace BackendSupabase

/-- The whitespace characters JS `trim()` strips (the forms occurring in
email fields). -/
def isJsSpace (c : Char) : Bool := c = ' ' || c = '\t' || c = '\n' || c = '\r'

/-- JS `s.trim()`, carried out on the character list. -/
def jsTrim (s : String) : String :=
  ⟨((s.data.dropWhile isJsSpace).reverse.dropWhile isJsSpace).reverse⟩

/-- JS `s.toLowerCase()` (ASCII case folding), carried out on the
character list. -/
def jsToLower (s : String) : String := ⟨s.data.map Char.toLower⟩

/-- JS email normalization used by several handlers:
`s.toString().trim().toLowerCase()`. -/
def normalizeEmail (s : String) : String := jsToLower (jsTrim s)

/-- JS `x || d` on an optional parsed integer: `none` models `NaN` /
`undefined`, and `0` is falsy so it also falls back to the default. -/
def jsOrInt (x : Option Int) (d : Int) : Int :=
  match x with
  | none => d
  | some v => if v = 0 then d else v

/-- JS truthiness test on an optional string field of a request body:
a missing field and the empty string are both falsy. -/
def strPresent (s : Option String) : Option String :=
  match s with
  | none => none
  | some v => if v = "" then none else some v

/-! ## Likes (`curtidas` table) and the toggle endpoint `POST /posts/:id/curtir` -/

/-- A row of the `curtidas` table. -/
structure Curtida where
  post_id : String
  usuario_email : String
  criado_em : Int
deriving DecidableEq, Repr

/-- Body of the toggle endpoint response: `{ success, curtido }`. -/
structure CurtirOk where
  success : Bool
  curtido : Bool
deriving DecidableEq, Repr

/-- Response of `POST /posts/:id/curtir`. -/
inductive CurtirResp where
  | ok (body : CurtirOk)
  | badRequest (msg : String)
deriving DecidableEq, Repr

/-- The rows of `curtidas` matching `post_id = postId AND usuario_email = key`
(the filters of both the existence check and the delete). -/
def curtidasFor (likes : List Curtida) (postId key : String) : List Curtida :=
  likes.filter (fun c => c.post_id = postId && c.usuario_email = key)

/-- `maybeSingle()` as used by the existence check: the data field is the row
when exactly one matches, and `null` otherwise (zero rows, or the
multiple-rows error whose `error` field the handler never reads). -/
def maybeSingleData (l : List Curtida) : Option Curtida :=
  match l with
  | [x] => some x
  | _ => none

/-- `POST /posts/:id/curtir`: look up an existing like for
`(post_id, usuario_email.toLowerCase())`; delete it and answer
`curtido: false` when found, insert one and answer `curtido: true`
otherwise.  Returns the response and the new `curtidas` table. -/
def curtirToggle (likes : List Curtida) (postId : String)
    (usuarioEmail : Option String) (now : Int) : CurtirResp × List Curtida :=
  match usuarioEmail with
  | none => (.badRequest "Email do usuario nao fornecido", likes)
  | some e =>
    let key := jsToLower e
    match maybeSingleData (curtidasFor likes postId key) with
    | some _ =>
      (.ok ⟨true, false⟩,
        likes.filter (fun c => !(c.post_id = postId && c.usuario_email = key)))
    | none =>
      (.ok ⟨true, true⟩, likes ++ [{ post_id := postId, usuario_email := key, criado_em := now }])

/-- Like state of `(postId, key)` as observed through the store:
at least one matching `curtidas` row exists. -/
def hasLike (likes : List Curtida) (postId key : String) : Bool :=
  !(curtidasFor likes postId key).isEmpty

/-- `n` consecutive calls of the toggle endpoint from the same user on the
same post (each call sees the table left by the previous one). -/
def curtirN (likes : List Curtida) (postId email : String) (now : Int) :
    Nat → List Curtida
  | 0 => likes
  | n + 1 => (curtirToggle (curtirN likes postId email now n) postId (some email) now).2

theorem curtidasFor_append (l₁ l₂ : List Curtida) (p k : String) :
    curtidasFor (l₁ ++ l₂) p k = curtidasFor l₁ p k ++ curtidasFor l₂ p k := by
  simp [curtidasFor, List.filter_append]

theorem curtidasFor_of_delete (likes : List Curtida) (p k : String) :
    curtidasFor (likes.filter (fun c => !(c.post_id = p && c.usuario_email = k))) p k = [] := by
  simp only [curtidasFor, List.filter_filter]
  apply List.filter_eq_nil_iff.2
  intro c _
  by_cases h : (c.post_id = p && c.usuario_email = k) = true
  · simp [h]
  · simp [h]

theorem curtidasFor_single (p k : String) (now : Int) :
    curtidasFor [{ post_id := p, usuario_email := k, criado_em := now }] p k =
      [{ post_id := p, usuario_email := k, criado_em := now }] := by
  simp [curtidasFor]

theorem hasLike_eq_false_iff (likes : List Curtida) (p k : String) :
    hasLike likes p k = false ↔ curtidasFor likes p k = [] := by
  simp [hasLike, List.isEmpty_iff]

theorem curtirToggle_of_absent (likes : List Curtida) (p e : String) (now : Int)
    (h : curtidasFor likes p (jsToLower e) = []) :
    curtirToggle likes p (some e) now =
      (.ok ⟨true, true⟩,
        likes ++ [{ post_id := p, usuario_email := jsToLower e, criado_em := now }]) := by
  simp [curtirToggle, h, maybeSingleData]

theorem curtirToggle_of_single (likes : List Curtida) (p e : String) (now : Int)
    (x : Curtida) (h : curtidasFor likes p (jsToLower e) = [x]) :
    (curtirToggle likes p (some e) now).1 = .ok ⟨true, false⟩ ∧
      curtidasFor (curtirToggle likes p (some e) now).2 p (jsToLower e) = [] := by
  have h2 : (curtirToggle likes p (some e) now).2 =
      likes.filter (fun c => !(c.post_id = p && c.usuario_email = jsToLower e)) := by
    simp [curtirToggle, h, maybeSingleData]
  refine ⟨by simp [curtirToggle, h, maybeSingleData], ?_⟩
  rw [h2, curtidasFor_of_delete]

theorem curtirToggle_of_many (likes : List Curtida) (p e : String) (now : Int)
    (x y : Curtida) (rest : List Curtida)
    (h : curtidasFor likes p (jsToLower e) = x :: y :: rest) :
    (curtirToggle likes p (some e) now).1 = .ok ⟨true, true⟩ ∧
      curtidasFor (curtirToggle likes p (some e) now).2 p (jsToLower e) =
        (x :: y :: rest) ++
          [{ post_id := p, usuario_email := jsToLower e, criado_em := now }] := by
  refine ⟨?_, ?_⟩ <;>
    simp [curtirToggle, h, maybeSingleData, curtidasFor_append, curtidasFor_single]

theorem curtirN_absent_matches (likes : List Curtida) (p e : String) (now : Int)
    (h : curtidasFor likes p (jsToLower e) = []) (n : Nat) :
    curtidasFor (curtirN likes p e now n) p (jsToLower e) =
      (if n % 2 = 0 then ([] : List Curtida)
       else [{ post_id := p, usuario_email := jsToLower e, criado_em := now }]) := by
  induction n with
  | zero => simpa [curtirN] using h
  | succ n ih =>
    rcases Nat.even_or_odd n with he | ho
    · have h0 : n % 2 = 0 := Nat.even_iff.mp he
      have h1 : (n + 1) % 2 = 1 := by omega
      rw [h0] at ih
      simp only [curtirN, h1]
      rw [curtirToggle_of_absent _ _ _ _ (by simpa using ih)]
      simp [curtidasFor_append, curtidasFor_single, h, ih]
    · have h0 : n % 2 = 1 := Nat.odd_iff.mp ho
      have h1 : (n + 1) % 2 = 0 := by omega
      rw [h0] at ih
      simp only [curtirN, h1]
      have := curtirToggle_of_single (curtirN likes p e now n) p e now _ (by simpa using ih)
      simpa using this.2

/-- Two consecutive toggle calls from the same user on the same post restore
the original like state, whatever the starting table holds. -/
theorem curtirToggle_twice (likes : List Curtida) (p e : String) (now₁ now₂ : Int) :
    hasLike
        ((curtirToggle ((curtirToggle likes p (some e) now₁).2) p (some e) now₂).2)
        p (jsToLower e) =
      hasLike likes p (jsToLower e) := by
  rcases hm : curtidasFor likes p (jsToLower e) with _ | ⟨x, _ | ⟨y, rest⟩⟩
  · rw [curtirToggle_of_absent likes p e now₁ hm]
    have h1 : curtidasFor
        (likes ++ [{ post_id := p, usuario_email := jsToLower e, criado_em := now₁ }])
        p (jsToLower e) =
        [{ post_id := p, usuario_email := jsToLower e, criado_em := now₁ }] := by
      simp [curtidasFor_append, curtidasFor_single, hm]
    have h2 := curtirToggle_of_single _ p e now₂ _ h1
    rw [(hasLike_eq_false_iff _ _ _).2 h2.2, (hasLike_eq_false_iff _ _ _).2 hm]
  · have h1 := curtirToggle_of_single likes p e now₁ x hm
    rw [curtirToggle_of_absent _ p e now₂ h1.2]
    have h2 : curtidasFor
        ((curtirToggle likes p (some e) now₁).2 ++
          [{ post_id := p, usuario_email := jsToLower e, criado_em := now₂ }])
        p (jsToLower e) =
        [{ post_id := p, usuario_email := jsToLower e, criado_em := now₂ }] := by
      simp [curtidasFor_append, curtidasFor_single, h1.2]
    simp [hasLike, h2, hm]
  · have h1 := curtirToggle_of_many likes p e now₁ x y rest hm
    rcases h2 : curtidasFor ((curtirToggle likes p (some e) now₁).2) p (jsToLower e) with
        _ | ⟨x', _ | ⟨y', rest'⟩⟩
    · rw [h1.2] at h2; simp at h2
    · rw [h1.2] at h2; simp at h2
    · have h3 := curtirToggle_of_many _ p e now₂ x' y' rest' h2
      simp [hasLike, h3.2, hm]

/-- C2: starting from a post the user has not liked, `n` consecutive
`POST /posts/:id/curtir` calls from the same `usuario_email` leave the like
present exactly when `n` is odd; two consecutive toggle calls restore the
original like state from any starting table; and from the un-liked state the
first call answers `curtido: true` and the second `curtido: false`. -/
theorem claim_C2_curtir_toggle (likes : List Curtida) (postId email : String) (now : Int)
    (habs : hasLike likes postId (jsToLower email) = false) :
    (∀ n, hasLike (curtirN likes postId email now n) postId (jsToLower email) =
        decide (n % 2 = 1)) ∧
    (∀ (likes' : List Curtida) (now₁ now₂ : Int),
      hasLike ((curtirToggle ((curtirToggle likes' postId (some email) now₁).2)
          postId (some email) now₂).2) postId (jsToLower email) =
        hasLike likes' postId (jsToLower email)) ∧
    (curtirToggle likes postId (some email) now).1 = .ok ⟨true, true⟩ ∧
    (curtirToggle ((curtirToggle likes postId (some email) now).2)
        postId (some email) now).1 = .ok ⟨true, false⟩ := by
  have hm : curtidasFor likes postId (jsToLower email) = [] :=
    (hasLike_eq_false_iff _ _ _).1 habs
  refine ⟨?_, ?_, ?_, ?_⟩
  · intro n
    simp only [hasLike, curtirN_absent_matches likes postId email now hm n]
    rcases Nat.mod_two_eq_zero_or_one n with h | h <;> simp [h]
  · intro likes' now₁ now₂
    exact curtirToggle_twice likes' postId email now₁ now₂
  · rw [curtirToggle_of_absent likes postId email now hm]
  · rw [curtirToggle_of_absent likes postId email now hm]
    have h1 : curtidasFor
        (likes ++ [{ post_id := postId, usuario_email := jsToLower email, criado_em := now }])
        postId (jsToLower email) =
        [{ post_id := postId, usuario_email := jsToLower email, criado_em := now }] := by
      simp [curtidasFor_append, curtidasFor_single, hm]
    exact (curtirToggle_of_single _ postId email now _ h1).1

/-- Witness for C2 at a concrete input: the empty likes table, post "1",
user "A@x.com". -/
theorem claim_C2_curtir_toggle_witness :
    hasLike (curtirN ([] : List Curtida) "1" "A@x.com" 7 3) "1" (jsToLower "A@x.com") = true ∧
    (curtirToggle ([] : List Curtida) "1" (some "A@x.com") 7).1 = .ok ⟨true, true⟩ := by
  have h := claim_C2_curtir_toggle [] "1" "A@x.com" 7 rfl
  exact ⟨(h.1 3).trans (by decide), h.2.2.1⟩

/-! ## Contract settings and the upsert emulation of `POST /contract-settings` -/

/-- The store-reported errors the handler discriminates on: `PGRST205`
(relation not found), `42P10` (no unique or exclusion constraint matching
the ON CONFLICT specification), and anything else. -/
inductive SbErr where
  | pgrst205
  | e42p10
  | otherErr (msg : String)
deriving DecidableEq, Repr

/-- Diagnostic message attached to a store error (`error.message`). -/
def sbErrMessage : SbErr → String
  | .pgrst205 => "relation does not exist"
  | .e42p10 => "there is no unique or exclusion constraint matching the ON CONFLICT specification"
  | .otherErr m => m

/-- A row of the `contract_settings` table. -/
structure CSRow where
  professor_email : String
  aluno_email : String
  professor_name : Option String
  professor_cref : Option String
  option1_value : Option Int
  option2_value : Option Int
  updated_at : Int
deriving DecidableEq, Repr

/-- The `contract_settings` side of the store: whether the table exists,
whether the composite unique constraint on
(professor_email, aluno_email) was created, an injected unrelated store
fault, and the rows. -/
structure CSDb where
  tableExists : Bool
  hasUniqueConstraint : Bool
  failInjected : Option String
  rows : List CSRow
deriving DecidableEq, Repr

/-- The composite-key filter `professor_email = p AND aluno_email = a`. -/
def csKeyMatches (r : CSRow) (p a : String) : Bool :=
  r.professor_email = p && r.aluno_email = a

/-- `supabase.from('contract_settings').upsert([row], onConflict).select()`:
fails with `PGRST205` when the table is missing, with `42P10` when the
conflict target has no unique constraint, otherwise replaces the rows with
the row's composite key (or appends) and returns the new row. -/
def csUpsert (db : CSDb) (row : CSRow) : Except SbErr (List CSRow × CSDb) :=
  match db.failInjected with
  | some m => .error (.otherErr m)
  | none =>
    if !db.tableExists then .error .pgrst205
    else if !db.hasUniqueConstraint then .error .e42p10
    else
      .ok ([row],
        { db with rows :=
            db.rows.filter (fun r => !csKeyMatches r row.professor_email row.aluno_email)
              ++ [row] })

/-- `update(upsertPayload).eq('professor_email', p).eq('aluno_email', a).select()`:
overwrites every row with the composite key and returns the affected rows
(possibly none; a zero-row update is not a store error). -/
def csUpdate (db : CSDb) (row : CSRow) : Except SbErr (List CSRow × CSDb) :=
  match db.failInjected with
  | some m => .error (.otherErr m)
  | none =>
    if !db.tableExists then .error .pgrst205
    else
      .ok ((db.rows.filter (fun r => csKeyMatches r row.professor_email row.aluno_email)).map
             (fun _ => row),
           { db with rows :=
               db.rows.map (fun r =>
                 if csKeyMatches r row.professor_email row.aluno_email then row else r) })

/-- `insert([upsertPayload]).select()`: appends the row and returns it. -/
def csInsert (db : CSDb) (row : CSRow) : Except SbErr (List CSRow × CSDb) :=
  match db.failInjected with
  | some m => .error (.otherErr m)
  | none =>
    if !db.tableExists then .error .pgrst205
    else .ok ([row], { db with rows := db.rows ++ [row] })

/-- Request body of `POST /contract-settings`. -/
structure CSPayload where
  professor_email : Option String
  aluno_email : Option String
  professor_name : Option String
  professor_cref : Option String
  option1_value : Option Int
  option2_value : Option Int
deriving DecidableEq, Repr

/-- Response of `POST /contract-settings`. -/
inductive CSResp where
  | ok (rows : List CSRow)
  | badRequest (msg : String)
  | serverError (msg : String) (details : Option String)
deriving DecidableEq, Repr

/-- The `upsertPayload` record the handler builds: normalized emails, the
optional fields passed through, `updated_at = now`. -/
def upsertPayloadOf (payload : CSPayload) (now : Int) (pRaw aRaw : String) : CSRow :=
  { professor_email := normalizeEmail pRaw
    aluno_email := normalizeEmail aRaw
    professor_name := payload.professor_name
    professor_cref := payload.professor_cref
    option1_value := payload.option1_value
    option2_value := payload.option2_value
    updated_at := now }

/-- Actionable message returned when `contract_settings` is missing. -/
def csMigrationMsg : String :=
  "Tabela contract_settings nao encontrada no banco. Execute create_contract_settings_table.sql no Supabase SQL Editor."

/-- Generic message of the outer catch of `POST /contract-settings`. -/
def csGenericMsg : String := "Erro ao salvar configuracoes de contrato"

/-- Message when the manual upsert emulation itself fails. -/
def csManualMsg : String := "Erro ao salvar configuracoes de contrato (upsert manual falhou)"

/-- `POST /contract-settings`: validate both emails, attempt the native
upsert keyed on (professor_email, aluno_email), special-case `PGRST205`
and `42P10` (UPDATE-then-INSERT emulation), and fall through to the
generic 500 for other store errors. -/
def postContractSettings (db : CSDb) (payload : CSPayload) (now : Int) : CSResp × CSDb :=
  match strPresent payload.professor_email with
  | none => (.badRequest "professor_email e obrigatorio", db)
  | some pRaw =>
    match strPresent payload.aluno_email with
    | none => (.badRequest "aluno_email e obrigatorio", db)
    | some aRaw =>
      let row := upsertPayloadOf payload now pRaw aRaw
      match csUpsert db row with
      | .ok (data, db2) => (.ok data, db2)
      | .error .pgrst205 => (.serverError csMigrationMsg none, db)
      | .error .e42p10 =>
        match csUpdate db row with
        | .ok (updated, db2) =>
          if updated.length > 0 then (.ok updated, db2)
          else
            match csInsert db2 row with
            | .ok (inserted, db3) => (.ok inserted, db3)
            | .error e => (.serverError csManualMsg (some (sbErrMessage e)), db2)
        | .error e => (.serverError csManualMsg (some (sbErrMessage e)), db)
      | .error (.otherErr m) => (.serverError csGenericMsg (some m), db)

/-- C1: with both `professor_email` and `aluno_email` present,
`POST /contract-settings` follows the three-attempt upsert emulation:
the native upsert is attempted first and its result returned on success;
`PGRST205` yields the server error naming the schema migration to run;
`42P10` triggers the UPDATE filtered by the composite key, whose rows are
returned when at least one row was affected, and otherwise the INSERT,
whose row is returned; any other store error yields the generic server
error. -/
theorem claim_C1_contract_settings_state_machine
    (db : CSDb) (payload : CSPayload) (now : Int) (pRaw aRaw : String)
    (hp : strPresent payload.professor_email = some pRaw)
    (ha : strPresent payload.aluno_email = some aRaw) :
    (db.failInjected = none → db.tableExists = true → db.hasUniqueConstraint = true →
      (postContractSettings db payload now).1 =
        .ok [upsertPayloadOf payload now pRaw aRaw]) ∧
    (db.failInjected = none → db.tableExists = false →
      postContractSettings db payload now = (.serverError csMigrationMsg none, db)) ∧
    (db.failInjected = none → db.tableExists = true → db.hasUniqueConstraint = false →
      db.rows.filter
          (fun r => csKeyMatches r (normalizeEmail pRaw) (normalizeEmail aRaw)) ≠ [] →
      (postContractSettings db payload now).1 =
        .ok ((db.rows.filter
            (fun r => csKeyMatches r (normalizeEmail pRaw) (normalizeEmail aRaw))).map
          (fun _ => upsertPayloadOf payload now pRaw aRaw))) ∧
    (db.failInjected = none → db.tableExists = true → db.hasUniqueConstraint = false →
      db.rows.filter
          (fun r => csKeyMatches r (normalizeEmail pRaw) (normalizeEmail aRaw)) = [] →
      (postContractSettings db payload now).1 =
        .ok [upsertPayloadOf payload now pRaw aRaw]) ∧
    (∀ m, db.failInjected = some m →
      postContractSettings db payload now = (.serverError csGenericMsg (some m), db)) := by
  refine ⟨?_, ?_, ?_, ?_, ?_⟩
  · intro hfi ht hu
    simp [postContractSettings, hp, ha, csUpsert, hfi, ht, hu]
  · intro hfi ht
    simp [postContractSettings, hp, ha, csUpsert, hfi, ht]
  · intro hfi ht hu hmatch
    have hpos : 0 < (db.rows.filter
        (fun r => csKeyMatches r (normalizeEmail pRaw) (normalizeEmail aRaw))).length :=
      List.length_pos.2 hmatch
    simp [postContractSettings, hp, ha, csUpsert, csUpdate, hfi, ht, hu,
      upsertPayloadOf, hpos]
  · intro hfi ht hu hmatch
    simp [postContractSettings, hp, ha, csUpsert, csUpdate, csInsert, hfi, ht, hu,
      upsertPayloadOf, hmatch]
  · intro m hfi
    simp [postContractSettings, hp, ha, csUpsert, hfi]

/-- Witness for C1 at a concrete input: a store whose `contract_settings`
table is missing produces the migration-naming server error. -/
theorem claim_C1_contract_settings_state_machine_witness :
    postContractSettings
        { tableExists := false, hasUniqueConstraint := false, failInjected := none, rows := [] }
        { professor_email := some "P@X.com", aluno_email := some " a@y.com "
          professor_name := none, professor_cref := none
          option1_value := none, option2_value := none } 5 =
      (.serverError csMigrationMsg none,
        { tableExists := false, hasUniqueConstraint := false, failInjected := none, rows := [] }) :=
  (claim_C1_contract_settings_state_machine
    { tableExists := false, hasUniqueConstraint := false, failInjected := none, rows := [] }
    { professor_email := some "P@X.com", aluno_email := some " a@y.com "
      professor_name := none, professor_cref := none
      option1_value := none, option2_value := none } 5 "P@X.com" " a@y.com "
    rfl rfl).2.1 rfl rfl

/-! ## Users, messages, and `PATCH /alunos/:id/contract` / `GET /alunos/:id`

Timestamps are epoch milliseconds; a request's `contract_end` is modelled
by the value `new Date(contract_end)` parses to (the unparsable-date corner
is outside the claims considered here).  The `mensagens` insert can be made
to fail through `mensagensInsertFails`, modelling a store failure of the
best-effort notification write. -/

/-- A row of the `users` table (the columns these handlers touch). -/
structure UserRow where
  id : Int
  email : String
  senha : String
  tipo : String
  criado_por : Option String
  contract_end : Option Int
  blocked : Int
deriving DecidableEq, Repr

/-- A row of the `mensagens` table (timestamp column omitted). -/
structure Mensagem where
  de : String
  para : String
  mensagem : String
deriving DecidableEq, Repr

/-- The store as seen by the user/contract handlers. -/
structure UsersDb where
  users : List UserRow
  mensagens : List Mensagem
  mensagensInsertFails : Bool
deriving DecidableEq, Repr

/-- `maybeSingle()`: `ok none` on zero rows, the row on exactly one,
and the multiple-rows store error otherwise. -/
def maybeSingleRow (l : List UserRow) : Except String (Option UserRow) :=
  match l with
  | [] => .ok none
  | [x] => .ok (some x)
  | _ => .error "JSON object requested, multiple (or no) rows returned"

/-- `update({contract_end, blocked}).eq('id', id)` on `users`: rewrites the
matching rows; affecting zero rows is not an error. -/
def usersUpdateContract (users : List UserRow) (id ce : Int) (blocked : Int) :
    List UserRow :=
  users.map (fun u =>
    if u.id = id then { u with contract_end := some ce, blocked := blocked } else u)

/-- Response of `PATCH /alunos/:id/contract`. -/
inductive PatchResult where
  | ok (id : Int) (contract_end : Int) (blocked : Int)
  | badRequest (msg : String)
  | serverError (msg : String)
deriving DecidableEq, Repr

/-- Expiry notice sent to the updated user when the contract is past due. -/
def msgExpirou : String :=
  "Seu contrato expirou. Por favor, contate seu administrador para renovar."

/-- Renewal notice sent to the updated user otherwise. -/
def msgAtualizado : String :=
  "Seu contrato foi atualizado. Acesse sua conta para mais detalhes."

/-- Notice sent to the professor about an expired student contract. -/
def msgProfExpirou : String :=
  "O contrato do aluno expirou. Por favor, verifique e tome as providencias necessarias."

/-- Notice sent to the professor about a renewed student contract. -/
def msgProfRenovado : String :=
  "O contrato do aluno foi renovado."

/-- `PATCH /alunos/:id/contract`: require `contract_end`, compute
`blocked` from `contract_end <= now`, update the user row, fetch it back,
attempt the two best-effort notification inserts (their failures are
swallowed), and answer `{id, contract_end, blocked}`. -/
def patchAlunoContract (db : UsersDb) (id : Int) (contract_end : Option Int)
    (professor_email_body : Option String) (now : Int) : PatchResult × UsersDb :=
  match contract_end with
  | none => (.badRequest "contract_end e obrigatorio", db)
  | some t =>
    let blocked : Bool := t ≤ now
    let blockedInt : Int := if blocked then 1 else 0
    let users2 := usersUpdateContract db.users id t blockedInt
    match maybeSingleRow (users2.filter (fun u => u.id = id)) with
    | .error e => (.serverError e, { db with users := users2 })
    | .ok userOpt =>
      let msgs1 :=
        match userOpt with
        | some u =>
          if u.email = "" then db.mensagens
          else if db.mensagensInsertFails then db.mensagens
          else db.mensagens ++
            [⟨"sistema", u.email, if blocked then msgExpirou else msgAtualizado⟩]
        | none => db.mensagens
      let professorEmail : Option String :=
        match userOpt with
        | some u =>
          if u.tipo = "professor" then some u.email
          else
            match strPresent professor_email_body with
            | some pe => some pe
            | none => strPresent u.criado_por
        | none => strPresent professor_email_body
      let msgs2 :=
        match professorEmail, userOpt with
        | some pe, some u =>
          if pe ≠ u.email then
            if db.mensagensInsertFails then msgs1
            else msgs1 ++
              [⟨"sistema", pe, if blocked then msgProfExpirou else msgProfRenovado⟩]
          else msgs1
        | _, _ => msgs1
      (.ok id t blockedInt, { db with users := users2, mensagens := msgs2 })

/-- Response of `GET /alunos/:id`. -/
inductive GetAlunoResult where
  | ok (u : UserRow)
  | notFound
  | serverError (msg : String)
deriving DecidableEq, Repr

/-- `GET /alunos/:id`: fetch the row by id and return it as stored;
the handler takes no clock and recomputes nothing. -/
def getAlunoById (db : UsersDb) (id : Int) : GetAlunoResult :=
  match maybeSingleRow (db.users.filter (fun u => u.id = id)) with
  | .error e => .serverError e
  | .ok none => .notFound
  | .ok (some u) => .ok u

theorem usersUpdateContract_filter (users : List UserRow) (id ce : Int) (b : Int) :
    (usersUpdateContract users id ce b).filter (fun u => u.id = id) =
      (users.filter (fun u => u.id = id)).map
        (fun u => { u with contract_end := some ce, blocked := b }) := by
  induction users with
  | nil => rfl
  | cons u rest ih =>
    by_cases h : u.id = id
    · simp [usersUpdateContract, List.filter_cons, h] at ih ⊢
      exact ih
    · simp [usersUpdateContract, List.filter_cons, h] at ih ⊢
      exact ih

theorem usersUpdateContract_of_no_match (users : List UserRow) (id ce : Int) (b : Int)
    (h : ∀ u ∈ users, u.id ≠ id) :
    usersUpdateContract users id ce b = users := by
  induction users with
  | nil => rfl
  | cons u rest ih =>
    have hu : u.id ≠ id := h u (List.mem_cons_self u rest)
    simp only [usersUpdateContract, List.map_cons, if_neg hu]
    have := ih (fun v hv => h v (List.mem_cons_of_mem u hv))
    simpa [usersUpdateContract] using this

/-- The response of `PATCH /alunos/:id/contract` depends only on the `users`
table: the `mensagens` state and the notification outcome never reach it. -/
theorem patchAlunoContract_fst (db₁ db₂ : UsersDb) (hus : db₁.users = db₂.users)
    (id : Int) (ce : Option Int) (pe : Option String) (now : Int) :
    (patchAlunoContract db₁ id ce pe now).1 = (patchAlunoContract db₂ id ce pe now).1 := by
  cases ce with
  | none => rfl
  | some t =>
    simp only [patchAlunoContract, hus]
    split <;> rfl

/-- C3: a `PATCH /alunos/:id/contract` carrying a `contract_end` that parses
to timestamp `t` answers `blocked = 1` exactly when `t ≤ now` at the moment
of the call, `blocked = 0` when `t` is in the future, stores that flag on
the user row, and a subsequent `GET /alunos/:id` (which takes no clock)
returns the stored flag unchanged. -/
theorem claim_C3_contract_blocked (db : UsersDb) (id t now : Int) (pe : Option String)
    (u : UserRow) (hu : db.users.filter (fun v => v.id = id) = [u]) :
    (t ≤ now → (patchAlunoContract db id (some t) pe now).1 = .ok id t 1) ∧
    (now < t → (patchAlunoContract db id (some t) pe now).1 = .ok id t 0) ∧
    getAlunoById (patchAlunoContract db id (some t) pe now).2 id =
      .ok { u with contract_end := some t, blocked := if t ≤ now then 1 else 0 } := by
  have hfil : ∀ b : Int,
      (usersUpdateContract db.users id t b).filter (fun v => v.id = id) =
        [{ u with contract_end := some t, blocked := b }] := by
    intro b
    rw [usersUpdateContract_filter, hu]
    rfl
  refine ⟨?_, ?_, ?_⟩
  · intro hle
    simp [patchAlunoContract, hfil, maybeSingleRow, hle]
  · intro hlt
    simp [patchAlunoContract, hfil, maybeSingleRow, not_le.2 hlt]
  · by_cases hle : t ≤ now
    · simp [patchAlunoContract, getAlunoById, hfil, maybeSingleRow, hle]
    · simp [patchAlunoContract, getAlunoById, hfil, maybeSingleRow, hle]

/-- Witness for C3 at a concrete input: user id 7, contract end 50,
now 100 (past due), then now 10 (future). -/
theorem claim_C3_contract_blocked_witness :
    (patchAlunoContract
        { users := [{ id := 7, email := "a@x.com", senha := "s", tipo := "aluno",
                      criado_por := some "p@x.com", contract_end := none, blocked := 0 }],
          mensagens := [], mensagensInsertFails := false } 7 (some 50) none 100).1 =
      .ok 7 50 1 ∧
    (patchAlunoContract
        { users := [{ id := 7, email := "a@x.com", senha := "s", tipo := "aluno",
                      criado_por := some "p@x.com", contract_end := none, blocked := 0 }],
          mensagens := [], mensagensInsertFails := false } 7 (some 50) none 10).1 =
      .ok 7 50 0 := by
  constructor
  · exact (claim_C3_contract_blocked
      { users := [{ id := 7, email := "a@x.com", senha := "s", tipo := "aluno",
                    criado_por := some "p@x.com", contract_end := none, blocked := 0 }],
        mensagens := [], mensagensInsertFails := false } 7 50 100 none
      { id := 7, email := "a@x.com", senha := "s", tipo := "aluno",
        criado_por := some "p@x.com", contract_end := none, blocked := 0 }
      rfl).1 (by decide)
  · exact (claim_C3_contract_blocked
      { users := [{ id := 7, email := "a@x.com", senha := "s", tipo := "aluno",
                    criado_por := some "p@x.com", contract_end := none, blocked := 0 }],
        mensagens := [], mensagensInsertFails := false } 7 50 10 none
      { id := 7, email := "a@x.com", senha := "s", tipo := "aluno",
        criado_por := some "p@x.com", contract_end := none, blocked := 0 }
      rfl).2.1 (by decide)

/-- C9: when no user row has the requested id, `PATCH /alunos/:id/contract`
with a valid `contract_end` still answers the success shape
`{id, contract_end, blocked}` echoing the request id (never a not-found
error), inserts no notification message, and leaves the store unchanged. -/
theorem claim_C9_patch_contract_missing_id (db : UsersDb) (id t now : Int)
    (pe : Option String) (h : ∀ u ∈ db.users, u.id ≠ id) :
    patchAlunoContract db id (some t) pe now =
      (.ok id t (if t ≤ now then 1 else 0), db) := by
  have hup : ∀ b : Int, usersUpdateContract db.users id t b = db.users :=
    fun b => usersUpdateContract_of_no_match db.users id t b h
  have hfil : db.users.filter (fun u => u.id = id) = [] :=
    List.filter_eq_nil_iff.2 (by simpa using h)
  by_cases hle : t ≤ now
  · simp [patchAlunoContract, hup, hfil, maybeSingleRow, hle]
  · simp [patchAlunoContract, hup, hfil, maybeSingleRow, hle]

/-- Witness for C9: an empty users table, id 3. -/
theorem claim_C9_patch_contract_missing_id_witness :
    patchAlunoContract
        { users := [], mensagens := [], mensagensInsertFails := false } 3 (some 9) none 4 =
      (.ok 3 9 0, { users := [], mensagens := [], mensagensInsertFails := false }) := by
  have h := claim_C9_patch_contract_missing_id
    { users := [], mensagens := [], mensagensInsertFails := false } 3 9 4 none
    (by intro u hu; cases hu)
  simpa using h

/-! ## `POST /treinos/:id/concluir` and the best-effort notification policy -/

/-- A row of the `progresso` table (opaque `loads`/`dados` omitted). -/
structure ProgressoRow where
  aluno_email : String
  treino_id : String
  peso_corporal : Option Int
  criado_em : Int
deriving DecidableEq, Repr

/-- The store as seen by `POST /treinos/:id/concluir`, with fault injection
on the primary `progresso` insert and on the notification insert. -/
structure ProgressoDb where
  users : List UserRow
  progresso : List ProgressoRow
  mensagens : List Mensagem
  progressoInsertError : Option SbErr
  mensagensInsertFails : Bool
deriving DecidableEq, Repr

/-- Response of `POST /treinos/:id/concluir`. -/
inductive ConcluirResult where
  | ok (rows : List ProgressoRow)
  | badRequest (msg : String)
  | serverError (msg : String)
deriving DecidableEq, Repr

/-- Actionable message when the `progresso` table is missing. -/
def progressoMigrationMsg : String :=
  "Tabela progresso nao encontrada. Execute backend/create_progresso_table.sql no Supabase SQL Editor."

/-- `POST /treinos/:id/concluir`: insert the progress record, then try to
notify the enrolling professor (resolved from the student row's
`criado_por`); the notification text is modelled as a constant since no
claim depends on it.  A notification failure is caught and logged; the
primary insert result is returned either way. -/
def concluirTreino (db : ProgressoDb) (treinoId : String) (aluno_email : Option String)
    (peso : Option Int) (now : Int) : ConcluirResult × ProgressoDb :=
  match strPresent aluno_email with
  | none => (.badRequest "aluno_email e obrigatorio no body", db)
  | some ae =>
    let alunoEmail := normalizeEmail ae
    let row : ProgressoRow := ⟨alunoEmail, treinoId, peso, now⟩
    match db.progressoInsertError with
    | some .pgrst205 => (.serverError progressoMigrationMsg, db)
    | some _ => (.serverError "Erro ao marcar treino como concluido", db)
    | none =>
      let professorEmail : Option String :=
        match db.users.filter (fun u => u.email = alunoEmail) with
        | [u] => strPresent u.criado_por
        | _ => none
      let msgs :=
        match professorEmail with
        | some prof =>
          if db.mensagensInsertFails then db.mensagens
          else db.mensagens ++ [⟨alunoEmail, prof, "treino concluido"⟩]
        | none => db.mensagens
      (.ok [row], { db with progresso := db.progresso ++ [row], mensagens := msgs })

/-- C7: for both notification-carrying mutations — marking a workout
complete and updating a student's contract — a failing `mensagens` insert
never changes the handler's response: with the primary write successful,
`POST /treinos/:id/concluir` answers the inserted progress row whether or
not the notification insert failed, and `PATCH /alunos/:id/contract`
answers the same response under both notification outcomes. -/
theorem claim_C7_notification_best_effort
    (pdb : ProgressoDb) (treinoId : String) (ae : Option String) (peso : Option Int)
    (now : Int) (hprim : pdb.progressoInsertError = none)
    (udb : UsersDb) (id t : Int) (pe : Option String) (now2 : Int) :
    ((concluirTreino { pdb with mensagensInsertFails := true } treinoId ae peso now).1 =
      (concluirTreino { pdb with mensagensInsertFails := false } treinoId ae peso now).1) ∧
    (∀ aeV, strPresent ae = some aeV →
      (concluirTreino pdb treinoId ae peso now).1 =
        .ok [⟨normalizeEmail aeV, treinoId, peso, now⟩]) ∧
    ((patchAlunoContract { udb with mensagensInsertFails := true } id (some t) pe now2).1 =
      (patchAlunoContract { udb with mensagensInsertFails := false } id (some t) pe now2).1) := by
  refine ⟨?_, ?_, ?_⟩
  · cases hae : strPresent ae with
    | none => simp [concluirTreino, hae]
    | some aeV => simp [concluirTreino, hae, hprim]
  · intro aeV haeV
    simp [concluirTreino, haeV, hprim]
  · exact patchAlunoContract_fst
      { udb with mensagensInsertFails := true }
      { udb with mensagensInsertFails := false } rfl id (some t) pe now2

/-- Witness for C7 at a concrete input: one student, a failing and a
succeeding notification insert. -/
theorem claim_C7_notification_best_effort_witness :
    (concluirTreino
        { users := [{ id := 1, email := "a@x.com", senha := "s", tipo := "aluno",
                      criado_por := some "p@x.com", contract_end := none, blocked := 0 }],
          progresso := [], mensagens := [], progressoInsertError := none,
          mensagensInsertFails := true } "42" (some "A@x.com") (some 80) 5).1 =
      (concluirTreino
        { users := [{ id := 1, email := "a@x.com", senha := "s", tipo := "aluno",
                      criado_por := some "p@x.com", contract_end := none, blocked := 0 }],
          progresso := [], mensagens := [], progressoInsertError := none,
          mensagensInsertFails := false } "42" (some "A@x.com") (some 80) 5).1 ∧
    (concluirTreino
        { users := [{ id := 1, email := "a@x.com", senha := "s", tipo := "aluno",
                      criado_por := some "p@x.com", contract_end := none, blocked := 0 }],
          progresso := [], mensagens := [], progressoInsertError := none,
          mensagensInsertFails := true } "42" (some "A@x.com") (some 80) 5).1 =
      .ok [⟨normalizeEmail "A@x.com", "42", some 80, 5⟩] := by
  have h := claim_C7_notification_best_effort
    { users := [{ id := 1, email := "a@x.com", senha := "s", tipo := "aluno",
                  criado_por := some "p@x.com", contract_end := none, blocked := 0 }],
      progresso := [], mensagens := [], progressoInsertError := none,
      mensagensInsertFails := true } "42" (some "A@x.com") (some 80) 5 rfl
    { users := [], mensagens := [], mensagensInsertFails := false } 0 0 none 0
  exact ⟨h.1, h.2.1 "A@x.com" rfl⟩

/-! ## `POST /login` -/

/-- Response of `POST /login`. -/
inductive LoginResult where
  | ok (u : UserRow)
  | badRequest (msg : String)
  | invalidCredentials
  | timeoutError
  | serverError (msg : String)
deriving DecidableEq, Repr

/-- The credential lookup
`from('users').select('*').eq('email', email).eq('senha', senha)`:
an exact-match filter on the supplied strings, preserving store order. -/
def loginQuery (users : List UserRow) (email senha : String) : List UserRow :=
  users.filter (fun u => u.email = email && u.senha = senha)

/-- `POST /login`: validate presence of both fields, race the lookup
against the 10 s timer (`timedOut` models the timer winning), surface a
store error as the generic 500, answer 401 `Credenciais invalidas` on an
empty result, and return the first row otherwise. -/
def loginHandler (users : List UserRow) (email senha : Option String)
    (timedOut : Bool) (storeErr : Option String) : LoginResult :=
  match strPresent email, strPresent senha with
  | none, _ => .badRequest "Email e senha sao obrigatorios"
  | _, none => .badRequest "Email e senha sao obrigatorios"
  | some e, some s =>
    if timedOut then .timeoutError
    else
      match storeErr with
      | some m => .serverError m
      | none =>
        match loginQuery users e s with
        | [] => .invalidCredentials
        | u :: _ => .ok u

/-- C4: when the store answers within the timeout and without error, a
request whose email and password exactly match a stored row gets the
first matching row back and never the invalid-credentials error; when no
row matches, the response is exactly the 401 invalid-credentials error,
identical whether the email is absent from the table or only the password
differs. -/
theorem claim_C4_login (users : List UserRow) (e s : String)
    (he : e ≠ "") (hs : s ≠ "") :
    ((∃ u ∈ users, u.email = e ∧ u.senha = s) →
      (∃ u rest, loginQuery users e s = u :: rest ∧
        loginHandler users (some e) (some s) false none = .ok u) ∧
      loginHandler users (some e) (some s) false none ≠ .invalidCredentials) ∧
    ((∀ u ∈ users, ¬(u.email = e ∧ u.senha = s)) →
      loginHandler users (some e) (some s) false none = .invalidCredentials) ∧
    (∀ (users' : List UserRow) (e' s' : String), e' ≠ "" → s' ≠ "" →
      (∀ u ∈ users, ¬(u.email = e ∧ u.senha = s)) →
      (∀ u ∈ users', ¬(u.email = e' ∧ u.senha = s')) →
      loginHandler users (some e) (some s) false none =
        loginHandler users' (some e') (some s') false none) := by
  have hpe : strPresent (some e) = some e := by simp [strPresent, he]
  have hps : strPresent (some s) = some s := by simp [strPresent, hs]
  have hempty : ∀ (us : List UserRow) (e₀ s₀ : String),
      (∀ u ∈ us, ¬(u.email = e₀ ∧ u.senha = s₀)) → loginQuery us e₀ s₀ = [] := by
    intro us e₀ s₀ hno
    apply List.filter_eq_nil_iff.2
    intro u hu
    simp only [Bool.and_eq_true, decide_eq_true_eq, not_and]
    intro h1 h2
    exact hno u hu ⟨h1, h2⟩
  refine ⟨?_, ?_, ?_⟩
  · rintro ⟨u, hu, hue, hus⟩
    have hmem : u ∈ loginQuery users e s := by
      simp [loginQuery, List.mem_filter, hu, hue, hus]
    rcases hq : loginQuery users e s with _ | ⟨v, rest⟩
    · rw [hq] at hmem; cases hmem
    · refine ⟨⟨v, rest, rfl, ?_⟩, ?_⟩
      · simp [loginHandler, hpe, hps, hq]
      · simp [loginHandler, hpe, hps, hq]
  · intro hno
    simp [loginHandler, hpe, hps, hempty users e s hno]
  · intro users' e' s' he' hs' hno hno'
    have hpe' : strPresent (some e') = some e' := by simp [strPresent, he']
    have hps' : strPresent (some s') = some s' := by simp [strPresent, hs']
    simp [loginHandler, hpe, hps, hpe', hps',
      hempty users e s hno, hempty users' e' s' hno']

/-- Witness for C4 at a concrete input: one stored user; matching
credentials log in, a wrong password gets invalid credentials. -/
theorem claim_C4_login_witness :
    loginHandler
        [{ id := 1, email := "ana@x.com", senha := "p1", tipo := "aluno",
           criado_por := none, contract_end := none, blocked := 0 }]
        (some "ana@x.com") (some "p1") false none =
      .ok { id := 1, email := "ana@x.com", senha := "p1", tipo := "aluno",
            criado_por := none, contract_end := none, blocked := 0 } ∧
    loginHandler
        [{ id := 1, email := "ana@x.com", senha := "p1", tipo := "aluno",
           criado_por := none, contract_end := none, blocked := 0 }]
        (some "ana@x.com") (some "wrong") false none = .invalidCredentials := by
  have h1 := claim_C4_login
    [{ id := 1, email := "ana@x.com", senha := "p1", tipo := "aluno",
       criado_por := none, contract_end := none, blocked := 0 }]
    "ana@x.com" "p1" (by decide) (by decide)
  have h2 := claim_C4_login
    [{ id := 1, email := "ana@x.com", senha := "p1", tipo := "aluno",
       criado_por := none, contract_end := none, blocked := 0 }]
    "ana@x.com" "wrong" (by decide) (by decide)
  constructor
  · obtain ⟨⟨u, rest, hq, hok⟩, -⟩ := h1.1
      ⟨{ id := 1, email := "ana@x.com", senha := "p1", tipo := "aluno",
         criado_por := none, contract_end := none, blocked := 0 },
       by simp, rfl, rfl⟩
    have hq' : loginQuery
        [{ id := 1, email := "ana@x.com", senha := "p1", tipo := "aluno",
           criado_por := none, contract_end := none, blocked := 0 }]
        "ana@x.com" "p1" =
        [{ id := 1, email := "ana@x.com", senha := "p1", tipo := "aluno",
           criado_por := none, contract_end := none, blocked := 0 }] := by decide
    rw [hq'] at hq
    cases hq
    exact hok
  · exact h2.2.1 (by decide)

/-! ## `GET /posts/feed/:limit/:offset` -/

/-- A row of the `posts` table (columns the feed query orders by). -/
structure Post where
  id : Int
  criado_em : Int
deriving DecidableEq, Repr

/-- `Math.min(parseInt(req.params.limit) || 20, 100)`: `none` models a
`parseInt` producing `NaN`. -/
def feedLimit (p : Option Int) : Int := min (jsOrInt p 20) 100

/-- `Math.max(parseInt(req.params.offset) || 0, 0)`. -/
def feedOffset (p : Option Int) : Int := max (jsOrInt p 0) 0

/-- The ordering `order('criado_em', { ascending: false })`. -/
def postDesc (a b : Post) : Prop := b.criado_em ≤ a.criado_em

instance : DecidableRel postDesc :=
  fun a b => inferInstanceAs (Decidable (b.criado_em ≤ a.criado_em))

instance : IsTotal Post postDesc :=
  ⟨fun a b => (le_total b.criado_em a.criado_em)⟩

instance : IsTrans Post postDesc :=
  ⟨fun _ _ _ h1 h2 => le_trans h2 h1⟩

/-- The page of posts the feed handler fetches:
`order('criado_em', descending).range(offset, offset + limit - 1)`,
i.e. the rows at positions `offset .. offset+limit-1` of the
reverse-chronological listing (the per-post like/comment enrichment is
independent of pagination and omitted). -/
def feedPosts (posts : List Post) (plimit poffset : Option Int) : List Post :=
  let limit := feedLimit plimit
  let offset := feedOffset poffset
  ((posts.insertionSort postDesc).drop offset.toNat).take limit.toNat

/-- C5 counterexample: the claim says the limit parameter is clamped to
the interval [0,100], but `limit=-5` is passed through as `-5` (the code
only clamps from above), and `limit=0` falls back to the default 20
rather than to the interval bound 0. -/
theorem claim_C5_feed_clamp_counterexample :
    feedLimit (some (-5)) = -5 ∧
    ¬(0 ≤ feedLimit (some (-5))) ∧
    feedLimit (some 0) = 20 := by
  decide

/-- C5 amended: the limit is clamped from above to 100 (so `limit=150`
behaves as 100) with unparsable or zero limits defaulting to 20, while
negative limits pass through un-clamped; the offset is clamped to be
nonnegative (so `offset=-5` behaves as 0); the returned page is ordered
by creation time descending; and an offset at or past the end of the data
yields the empty list rather than an error. -/
theorem claim_C5_feed_pagination_amended :
    feedLimit (some 150) = 100 ∧
    (∀ p, feedLimit p ≤ 100) ∧
    feedOffset (some (-5)) = 0 ∧
    (∀ p, 0 ≤ feedOffset p) ∧
    (∀ posts pl po, List.Sorted postDesc (feedPosts posts pl po)) ∧
    (∀ posts pl po, posts.length ≤ (feedOffset po).toNat → feedPosts posts pl po = []) := by
  refine ⟨by decide, ?_, by decide, ?_, ?_, ?_⟩
  · intro p
    exact min_le_right _ _
  · intro p
    exact le_max_right _ _
  · intro posts pl po
    have hs : List.Sorted postDesc (posts.insertionSort postDesc) :=
      List.sorted_insertionSort postDesc posts
    have hsub : List.Sublist
        (((posts.insertionSort postDesc).drop (feedOffset po).toNat).take
          (feedLimit pl).toNat)
        (posts.insertionSort postDesc) :=
      (List.take_sublist _ _).trans (List.drop_sublist _ _)
    exact List.Pairwise.sublist hsub hs
  · intro posts pl po hlen
    have hlen' : (posts.insertionSort postDesc).length ≤ (feedOffset po).toNat := by
      rwa [List.length_insertionSort]
    simp [feedPosts, List.drop_eq_nil_of_le hlen']

/-- Witness for C5 amended at a concrete input: two posts, offset 5 past
the end gives the empty page. -/
theorem claim_C5_feed_pagination_amended_witness :
    feedPosts [⟨1, 10⟩, ⟨2, 20⟩] (some 20) (some 5) = [] ∧ feedLimit (some 150) = 100 :=
  ⟨claim_C5_feed_pagination_amended.2.2.2.2.2 [⟨1, 10⟩, ⟨2, 20⟩] (some 20) (some 5)
      (by decide),
    claim_C5_feed_pagination_amended.1⟩

/-! ## Email normalization across the email-keyed handlers -/

/-- A row of the `treinos` table. -/
structure TreinoRow where
  aluno_email : String
  treino : String
  data : Int
deriving DecidableEq, Repr

/-- The ordering `order('data', { ascending: false })` of the workout list. -/
def treinoDesc (a b : TreinoRow) : Prop := b.data ≤ a.data

instance : DecidableRel treinoDesc :=
  fun a b => inferInstanceAs (Decidable (b.data ≤ a.data))

instance : IsTotal TreinoRow treinoDesc :=
  ⟨fun a b => le_total b.data a.data⟩

instance : IsTrans TreinoRow treinoDesc :=
  ⟨fun _ _ _ h1 h2 => le_trans h2 h1⟩

/-- `GET /treinos/:aluno_email`: filters `aluno_email` with the decoded
path parameter exactly as supplied — no trim, no lowercasing — and orders
by date descending. -/
def getTreinosByAluno (treinos : List TreinoRow) (alunoParam : String) : List TreinoRow :=
  (treinos.filter (fun t => t.aluno_email = alunoParam)).insertionSort treinoDesc

/-- The normalized `users` insert payload built by `handleCreateAluno`. -/
structure AlunoPayload where
  nome : String
  email : String
  senha : String
  tipo : String
  criado_por : Option String
deriving DecidableEq, Repr

/-- `handleCreateAluno` payload construction: `nome` trimmed, `email`
trimmed and lowercased, `criado_por` trimmed and lowercased when present
(truthy), `tipo` defaulting to `aluno`. -/
def createAlunoPayload (nome email senha : String) (tipo : Option String)
    (criado_por : Option String) : AlunoPayload :=
  { nome := nome.trim
    email := normalizeEmail email
    senha := senha
    tipo := match strPresent tipo with
            | some tp => tp
            | none => "aluno"
    criado_por := (strPresent criado_por).map normalizeEmail }

/-- C6 counterexample: the claim says every email-keyed lookup normalizes
to lowercase and trimmed before comparison, but `POST /login` compares the
supplied email raw — with the account stored under the normalized
`ana@x.com` (as `handleCreateAluno` writes it) and the correct password,
a login supplying `ANA@x.com` is answered 401 invalid credentials — and
`GET /treinos/:aluno_email` likewise matches the un-trimmed, un-lowercased
parameter only. -/
theorem claim_C6_email_normalization_counterexample :
    normalizeEmail "ANA@x.com" = "ana@x.com" ∧
    loginHandler
        [{ id := 1, email := "ana@x.com", senha := "p1", tipo := "aluno",
           criado_por := none, contract_end := none, blocked := 0 }]
        (some "ANA@x.com") (some "p1") false none = .invalidCredentials ∧
    getTreinosByAluno [⟨"ana@x.com", "w", 0⟩] " ana@x.com" = [] := by
  refine ⟨by decide, by decide, by decide⟩

/-- C6 amended: `handleCreateAluno` and `POST /contract-settings`
normalize the emails they store (lowercase and trimmed), but `POST /login`
and `GET /treinos/:aluno_email` compare the supplied email exactly as
given, with no normalization, and `POST /posts/:id/curtir` lowercases the
email without trimming it. -/
theorem claim_C6_email_normalization_amended :
    (∀ nome email senha tipo cp,
      (createAlunoPayload nome email senha tipo cp).email = normalizeEmail email ∧
      (createAlunoPayload nome email senha tipo cp).criado_por =
        (strPresent cp).map normalizeEmail) ∧
    (∀ payload now pRaw aRaw,
      (upsertPayloadOf payload now pRaw aRaw).professor_email = normalizeEmail pRaw ∧
      (upsertPayloadOf payload now pRaw aRaw).aluno_email = normalizeEmail aRaw) ∧
    (∀ users e s u, u ∈ loginQuery users e s ↔ (u ∈ users ∧ u.email = e ∧ u.senha = s)) ∧
    (∀ treinos a t, t ∈ getTreinosByAluno treinos a ↔ (t ∈ treinos ∧ t.aluno_email = a)) ∧
    (curtirToggle [] "1" (some " A@b.com") 0).2 =
      [{ post_id := "1", usuario_email := " a@b.com", criado_em := 0 }] := by
  refine ⟨fun _ _ _ _ _ => ⟨rfl, rfl⟩, fun _ _ _ _ => ⟨rfl, rfl⟩, ?_, ?_, by decide⟩
  · intro users e s u
    simp [loginQuery, List.mem_filter, and_assoc]
  · intro treinos a t
    simp [getTreinosByAluno, List.mem_insertionSort, List.mem_filter]

/-! ## The unconfigured-store stub of `supabaseClient.js`

When `SUPABASE_URL` / `SUPABASE_SERVICE_KEY` are absent, `supabase` is
`supabaseStub`.  Its chain object offers `stubResponse` (an async function
settling to a data-null / not-configured-error result) under
`maybeSingle`, `single` and `range`, but the chain itself — what
`from(t).select(cols)` and any `.eq(...)` return — carries
`then: () => Promise.resolve(stubResponse())`, a `then` that ignores the
resolve and reject callbacks the await machinery hands it.  Awaiting such
a thenable never resumes the handler. -/

/-- A settled Supabase call result: the destructured `data` and `error`
fields (rows left opaque). -/
structure SbResult where
  data : Option (List String)
  error : Option String
deriving DecidableEq, Repr

/-- The stub's not-configured error message. -/
def notConfiguredMsg : String :=
  "Supabase not configured (SUPABASE_URL/SUPABASE_SERVICE_KEY missing or invalid)"

/-- `stubResponse`: `{ data: null, error: new Error(notConfiguredMsg) }`. -/
def stubResponse : SbResult := { data := none, error := some notConfiguredMsg }

/-- A JS thenable as the await machinery observes it: either it settles
with a value, or its `then` discards the resolve/reject callbacks it is
handed, so the awaiting handler is never resumed. -/
inductive Thenable (α : Type) where
  | settled (v : α)
  | ignoresCallbacks
deriving DecidableEq, Repr

/-- Awaiting a thenable; `none` models an await that never resolves. -/
def awaitThenable {α : Type} : Thenable α → Option α
  | .settled v => some v
  | .ignoresCallbacks => none

/-- The awaited stub select chain (`from(t).select(...)`, optionally with
`.eq(...)`, which returns the same chain): its `then` is
`() => Promise.resolve(stubResponse())`, ignoring both callbacks. -/
def stubSelectChain : Thenable SbResult := .ignoresCallbacks

/-- A stub chain terminated by `maybeSingle()` / `single()` / `range()`:
these fields are `stubResponse` itself, so the await settles with the
not-configured error result. -/
def stubTerminated : Thenable SbResult := .settled stubResponse

/-- Response of `GET /users`. -/
inductive UsersResp where
  | ok (rows : List String)
  | serverError (msg : String)
deriving DecidableEq, Repr

/-- `GET /users` when the store credentials are absent: the handler first
awaits `supabase.from('users').select('*')` — the broken stub chain — and
only afterwards branches on the error; `none` means the request never
receives a response. -/
def getUsersUnconfigured : Option UsersResp :=
  (awaitThenable stubSelectChain).map (fun r =>
    match r.error with
    | some e => .serverError e
    | none => .ok (r.data.getD []))

/-- `POST /login` when the store credentials are absent: the credential
lookup is the broken select chain, raced against the 10 s timer, so the
race is decided by whichever settles. -/
def loginUnconfigured (email senha : String) : LoginResult :=
  match strPresent (some email), strPresent (some senha) with
  | none, _ => .badRequest "Email e senha sao obrigatorios"
  | _, none => .badRequest "Email e senha sao obrigatorios"
  | some _, some _ =>
    match stubSelectChain with
    | .settled r =>
      match r.error with
      | some m => .serverError m
      | none => .invalidCredentials
    | .ignoresCallbacks => .timeoutError

/-- `GET /alunos/:id` when the store credentials are absent: the chain ends
in `maybeSingle()`, which on the stub is `stubResponse`, so the await
settles, the error is thrown and the handler answers its 500 carrying the
stub's message. -/
def getAlunoByIdUnconfigured : Option GetAlunoResult :=
  (awaitThenable stubTerminated).map (fun r =>
    match r.error with
    | some e => .serverError e
    | none => .notFound)

/-- C8 (code bug): with the store credentials absent, `GET /users` never
produces a response at all — the await of the stub select chain never
resolves, because the stub's `then` ignores its callbacks — and
`POST /login` answers its 10-second-timeout 500 rather than the
not-configured error; only chains ending in `maybeSingle()` /
`single()` / `range()` actually degrade to an error response carrying the
stub's `Supabase not configured` message, as the claim demands of every
endpoint. -/
theorem claim_C8_unconfigured_stub :
    getUsersUnconfigured = none ∧
    loginUnconfigured "a@x.com" "p1" = .timeoutError ∧
    getAlunoByIdUnconfigured = some (.serverError notConfiguredMsg) :=
  ⟨rfl, rfl, rfl⟩

/-! ## Store products: `POST /produtos` and `GET /produtos` -/

/-- A row of the `produtos_loja` table. -/
structure Produto where
  titulo : String
  imagem_url : String
  link_mercadolivre : String
  ordem : Int
  ativo : Bool
deriving DecidableEq, Repr

/-- The ordering `order('ordem', { ascending: false })`. -/
def ordemDesc (a b : Produto) : Prop := b.ordem ≤ a.ordem

instance : DecidableRel ordemDesc :=
  fun a b => inferInstanceAs (Decidable (b.ordem ≤ a.ordem))

instance : IsTotal Produto ordemDesc :=
  ⟨fun a b => le_total b.ordem a.ordem⟩

instance : IsTrans Produto ordemDesc :=
  ⟨fun _ _ _ h1 h2 => le_trans h2 h1⟩

/-- The ordering `order('ordem', { ascending: true })` of the listing. -/
def ordemAsc (a b : Produto) : Prop := a.ordem ≤ b.ordem

instance : DecidableRel ordemAsc :=
  fun a b => inferInstanceAs (Decidable (a.ordem ≤ b.ordem))

instance : IsTotal Produto ordemAsc :=
  ⟨fun a b => le_total a.ordem b.ordem⟩

instance : IsTrans Produto ordemAsc :=
  ⟨fun _ _ _ h1 h2 => le_trans h1 h2⟩

/-- `select('ordem').order('ordem', descending).limit(1).single()` followed
by `(ultimoProduto?.ordem || 0) + 1`: the top row of the descending listing
(the `single()` error on an empty table is destructured away, leaving
`data` null). -/
def novaOrdem (produtos : List Produto) : Int :=
  jsOrInt ((produtos.insertionSort ordemDesc).head?.map (fun p => p.ordem)) 0 + 1

/-- Response of `POST /produtos`. -/
inductive ProdutoResp where
  | ok (p : Produto)
  | badRequest (msg : String)
deriving DecidableEq, Repr

/-- `POST /produtos`: validate the three required fields, compute
`novaOrdem`, insert the product as active. -/
def postProduto (produtos : List Produto) (titulo imagem link : Option String) :
    ProdutoResp × List Produto :=
  match strPresent titulo, strPresent imagem, strPresent link with
  | some t, some img, some lnk =>
    let p : Produto :=
      { titulo := jsTrim t, imagem_url := img, link_mercadolivre := lnk,
        ordem := novaOrdem produtos, ativo := true }
    (.ok p, produtos ++ [p])
  | _, _, _ => (.badRequest "Titulo, imagem e link sao obrigatorios", produtos)

/-- `GET /produtos`: the active products in ascending `ordem`. -/
def getProdutos (produtos : List Produto) : List Produto :=
  (produtos.filter (fun p => p.ativo)).insertionSort ordemAsc

theorem novaOrdem_gt (produtos : List Produto) (p : Produto) (hp : p ∈ produtos) :
    p.ordem < novaOrdem produtos := by
  rcases hs : produtos.insertionSort ordemDesc with _ | ⟨h, t⟩
  · have : produtos = [] := by
      have := List.perm_insertionSort ordemDesc produtos
      rw [hs] at this
      exact (List.Perm.nil_eq this).symm
    rw [this] at hp
    cases hp
  · have hsorted : List.Sorted ordemDesc (h :: t) := by
      rw [← hs]
      exact List.sorted_insertionSort ordemDesc produtos
    have hmem : p ∈ h :: t := by
      rw [← hs, List.mem_insertionSort]
      exact hp
    have hle : p.ordem ≤ h.ordem := by
      rcases List.mem_cons.1 hmem with rfl | hmem'
      · exact le_refl p.ordem
      · exact (List.sorted_cons.1 hsorted).1 p hmem'
    have : novaOrdem produtos = h.ordem + 1 := by
      simp only [novaOrdem, hs, List.head?_cons, Option.map_some]
      rcases eq_or_ne h.ordem 0 with h0 | h0
      · simp [jsOrInt, h0]
      · simp [jsOrInt, h0]
    omega

/-- In a list sorted ascending by `ordem`, an element strictly greater in
`ordem` than every other element is the last one. -/
theorem sorted_getLast_of_strict_max (l : List Produto) (x : Produto)
    (hs : List.Sorted ordemAsc l) (hx : x ∈ l)
    (hmax : ∀ y ∈ l, y ≠ x → y.ordem < x.ordem) :
    l.getLast? = some x := by
  induction l with
  | nil => cases hx
  | cons a t ih =>
    cases t with
    | nil =>
      have hxa : x = a := by simpa using hx
      subst hxa
      rfl
    | cons b t' =>
      have hxt : x ∈ b :: t' := by
        rcases List.mem_cons.1 hx with rfl | hmem
        · by_contra hnb
          have hbx : b ≠ x := by
            intro hbe
            exact hnb (hbe ▸ List.mem_cons_self b t')
          have hblt : b.ordem < x.ordem :=
            hmax b (List.mem_cons_of_mem x (List.mem_cons_self b t')) hbx
          have hab : ordemAsc x b :=
            (List.sorted_cons.1 hs).1 b (List.mem_cons_self b t')
          exact absurd hab (not_le.2 hblt)
        · exact hmem
      have hs' : List.Sorted ordemAsc (b :: t') := (List.sorted_cons.1 hs).2
      have hmax' : ∀ y ∈ b :: t', y ≠ x → y.ordem < x.ordem :=
        fun y hy => hmax y (List.mem_cons_of_mem a hy)
      rw [List.getLast?_cons_cons]
      exact ih hs' hxt hmax'

/-- C10: a product created by `POST /produtos` receives an `ordem`
strictly greater than the `ordem` of every product present at insert time
(`max + 1`, and `1` on an empty table), so in the ascending-`ordem`
listing of `GET /produtos` the new product sorts last. -/
theorem claim_C10_produto_ordem (produtos : List Produto) (t img lnk : String)
    (ht : t ≠ "") (himg : img ≠ "") (hlnk : lnk ≠ "") :
    (∀ p ∈ produtos, p.ordem < novaOrdem produtos) ∧
    (produtos = [] → novaOrdem produtos = 1) ∧
    (postProduto produtos (some t) (some img) (some lnk) =
      (.ok { titulo := jsTrim t, imagem_url := img, link_mercadolivre := lnk,
             ordem := novaOrdem produtos, ativo := true },
       produtos ++ [{ titulo := jsTrim t, imagem_url := img, link_mercadolivre := lnk,
                      ordem := novaOrdem produtos, ativo := true }])) ∧
    (getProdutos (postProduto produtos (some t) (some img) (some lnk)).2).getLast? =
      some { titulo := jsTrim t, imagem_url := img, link_mercadolivre := lnk,
             ordem := novaOrdem produtos, ativo := true } := by
  have hpost : postProduto produtos (some t) (some img) (some lnk) =
      (.ok { titulo := jsTrim t, imagem_url := img, link_mercadolivre := lnk,
             ordem := novaOrdem produtos, ativo := true },
       produtos ++ [{ titulo := jsTrim t, imagem_url := img, link_mercadolivre := lnk,
                      ordem := novaOrdem produtos, ativo := true }]) := by
    simp [postProduto, strPresent, ht, himg, hlnk]
  refine ⟨novaOrdem_gt produtos, ?_, hpost, ?_⟩
  · intro h
    subst h
    rfl
  · rw [hpost]
    set newP : Produto :=
      { titulo := jsTrim t, imagem_url := img, link_mercadolivre := lnk,
        ordem := novaOrdem produtos, ativo := true } with hnewP
    apply sorted_getLast_of_strict_max
    · exact List.sorted_insertionSort ordemAsc _
    · rw [getProdutos, List.mem_insertionSort, List.mem_filter]
      refine ⟨List.mem_append.2 (Or.inr (List.mem_cons_self _ _)), ?_⟩
      simp [hnewP]
    · intro y hy hyne
      rw [getProdutos, List.mem_insertionSort, List.mem_filter,
        List.mem_append] at hy
      rcases hy.1 with hmem | hmem
      · exact novaOrdem_gt produtos y hmem
      · have : y = newP := by simpa using hmem
        exact absurd this hyne

/-- Witness for C10 at a concrete input: one existing product with
`ordem = 4`; the new product gets `ordem = 5` and lists last. -/
theorem claim_C10_produto_ordem_witness :
    novaOrdem [{ titulo := "antigo", imagem_url := "i", link_mercadolivre := "l",
                 ordem := 4, ativo := true }] = 5 ∧
    (getProdutos (postProduto
        [{ titulo := "antigo", imagem_url := "i", link_mercadolivre := "l",
           ordem := 4, ativo := true }]
        (some "Novo") (some "img") (some "lnk")).2).getLast? =
      some { titulo := jsTrim "Novo", imagem_url := "img", link_mercadolivre := "lnk",
             ordem := novaOrdem
               [{ titulo := "antigo", imagem_url := "i", link_mercadolivre := "l",
                  ordem := 4, ativo := true }], ativo := true } := by
  have h := claim_C10_produto_ordem
    [{ titulo := "antigo", imagem_url := "i", link_mercadolivre := "l",
       ordem := 4, ativo := true }]
    "Novo" "img" "lnk" (by decide) (by decide) (by decide)
  exact ⟨by decide, h.2.2.2⟩

end BackendSupabase
